import Mathlib

/-!
Shallow embedding of the call-throttling primitive of this repository
(`python_mpd/utils.py`, class `Throttle` and its inner `wrapper`).

Modelling conventions:
* Timestamps are natural-number ticks; `datetime.now() - throttle[1] > self.min_time`
  becomes `min_time < tNow - last` on `Nat` (timestamps are monotone, and
  `min_time` is a non-negative duration, so truncated subtraction agrees with
  the `timedelta` comparison).
* A throttle entry `host._throttle[id(self)] = [threading.Lock(), None]`
  (utils.py line 78) is the structure `Entry`: the lock's held/free state and
  the optional last-success timestamp.
* The wrapper body (utils.py lines 61-95) is `wrapperRun`.  It is a net-effect
  step: the lock is acquired at entry and released in the `finally` block, so
  the post-state's `locked` field reflects the release; `tNow` is the
  `datetime.now()` of the interval check (line 88) and `tRec` the
  `datetime.now()` recorded after the delegate returns (line 90), with the
  method to run abstracted so that the secondary (`limit_no_throttle`) nesting
  of line 45 can be expressed by instantiation.
* The Python value `None` doubles as the throttled sentinel, so results live in
  `Option`: `none` is the sentinel, `some v` a real delegate result.  A raising
  delegate is an `Except.error`.
* For a coroutine function the same synchronous wrapper runs, but
  `method(*args, **kwargs)` (line 89) merely creates the coroutine without
  executing its body; `asyncWrapperCall` models that call and `awaitRun` the
  later awaiting of the returned object.
-/

/-- One throttle entry `[threading.Lock(), None]` (utils.py line 78):
the lock state and the optional last-success timestamp `throttle[1]`. -/
structure Entry where
  locked : Bool
  last : Option Nat
deriving DecidableEq, Repr

/-- A freshly created entry (utils.py line 78): unlocked, no timestamp. -/
def Entry.fresh : Entry := { locked := false, last := none }

/-- The wrapper body (utils.py lines 81-95), generic in the method it guards.
`method` consumes its own state `ms` and reports its result, its new state and
whether the underlying delegate actually ran.  Steps, in source order:
try-acquire the lock (line 81: failure returns the sentinel untouched);
`force = kwargs.pop('no_throttle', False) or not throttle[1]` (line 85);
if `force or now - throttle[1] > min_time` run the method, set
`throttle[1]` to the post-return time `tRec` (line 90) and return the result;
otherwise return the sentinel; the `finally` (line 94) releases the lock on
every path, including a raising method, which leaves `throttle[1]` unwritten. -/
def wrapperRun {ε α μ : Type} (min_time : Nat) (no_throttle : Bool)
    (tNow tRec : Nat) (method : μ → Except ε (Option α) × μ × Bool)
    (entry : Entry) (ms : μ) : Except ε (Option α) × Entry × μ × Bool :=
  if entry.locked then
    (Except.ok none, entry, ms, false)
  else
    let force := no_throttle || entry.last.isNone
    if force || decide (min_time < tNow - entry.last.getD 0) then
      match method ms with
      | (Except.ok v, ms', _ran) =>
          (Except.ok v, { locked := false, last := some tRec }, ms', _ran)
      | (Except.error err, ms', _ran) =>
          (Except.error err, entry, ms', _ran)
    else
      (Except.ok none, entry, ms, false)

/-- The innermost method: the real delegate.  Running it always counts as the
delegate executing; its value is wrapped in `some` (a real result, not the
sentinel) and a raise is propagated. -/
def delegateMethod {ε α : Type} (d : Except ε α) :
    Unit → Except ε (Option α) × Unit × Bool :=
  fun _ => (d.map some, (), true)

/-- One invocation of an unnested throttled operation on its entry: result,
updated entry, and whether the delegate ran. -/
def throttleCall {ε α : Type} (min_time : Nat) (entry : Entry)
    (no_throttle : Bool) (tNow tRec : Nat) (d : Except ε α) :
    Except ε (Option α) × Entry × Bool :=
  let out := wrapperRun min_time no_throttle tNow tRec (delegateMethod d) entry ()
  (out.1, out.2.1, out.2.2.2)

/-- One invocation when `limit_no_throttle` is set (utils.py lines 44-45):
the delegate is first wrapped by the secondary definition `limit`, and the
primary wrapper `min_time` wraps that.  The outer wrapper pops `no_throttle`,
so the inner wrapper always sees `no_throttle = false` and gates on its own
entry `ie`.  Returns result, updated outer entry, updated inner entry, and
whether the real delegate ran.  `tInner`/`tInnerRec` are the inner wrapper's
two clock readings, `tOut`/`tOutRec` the outer's. -/
def nestedCall {ε α : Type} (min_time limit : Nat) (oe ie : Entry)
    (no_throttle : Bool) (tOut tInner tInnerRec tOutRec : Nat)
    (d : Except ε α) : Except ε (Option α) × Entry × Entry × Bool :=
  wrapperRun min_time no_throttle tOut tOutRec
    (fun ie0 => throttleCall limit ie0 false tInner tInnerRec d) oe ie

/-- The per-entity registry for one throttle definition: the entry stored on
`host._throttle` for that definition's id, indexed by host (owning entity). -/
def Registry : Type := Nat → Option Entry

/-- Lazy entry creation (utils.py lines 74-79): reuse the host's entry if
present, otherwise a fresh `[threading.Lock(), None]`. -/
def lookupOrCreate (reg : Registry) (ent : Nat) : Entry :=
  (reg ent).getD Entry.fresh

/-- One invocation resolved through the owning entity `ent`: look up or create
the entry on that host, run the wrapper, and store the updated entry back on
that host only. -/
def callOnEntity {ε α : Type} (min_time : Nat) (reg : Registry) (ent : Nat)
    (no_throttle : Bool) (tNow tRec : Nat) (d : Except ε α) :
    Except ε (Option α) × Registry × Bool :=
  let out := throttleCall min_time (lookupOrCreate reg ent) no_throttle tNow tRec d
  (out.1, fun x => if x = ent then some out.2.1 else reg x, out.2.2)

/-- What the synchronous wrapper hands back when the wrapped method is a
coroutine function: either the sentinel coroutine (`throttled_value`,
utils.py lines 35-38, which resolves to `None`) or the real, not yet executed
delegate coroutine created on line 89. -/
inductive AsyncRet where
  | sentinel
  | pending
deriving DecidableEq, Repr

/-- The wrapper invocation on a coroutine function (utils.py lines 81-95).
The wrapper itself is a plain synchronous function: `method(*args, **kwargs)`
on line 89 only creates the coroutine, so no delegate code runs, no exception
can surface here, `throttle[1]` is set to the creation time `tNow`, and the
`finally` releases the lock before the wrapper returns the pending
coroutine. -/
def asyncWrapperCall (min_time : Nat) (entry : Entry) (no_throttle : Bool)
    (tNow : Nat) : AsyncRet × Entry :=
  if entry.locked then
    (AsyncRet.sentinel, entry)
  else if (no_throttle || entry.last.isNone)
      || decide (min_time < tNow - entry.last.getD 0) then
    (AsyncRet.pending, { locked := false, last := some tNow })
  else
    (AsyncRet.sentinel, entry)

/-- Awaiting the object returned by the wrapper: the sentinel coroutine
resolves to `None`; the pending coroutine executes the delegate body now.
No entry is involved: the lock and timestamp were handled (and the lock
released) inside the already-returned wrapper call. -/
def awaitRun {ε α : Type} (r : AsyncRet) (body : Unit → Except ε α) :
    Except ε (Option α) :=
  match r with
  | AsyncRet.sentinel => Except.ok none
  | AsyncRet.pending => (body ()).map some

/-- Attribute names the throttle machinery ever creates on an object at run
time: the wrapper stores its state solely in the private dict attribute
`host._throttle` (utils.py lines 74-79).  No other attribute — in particular
not the `last_call` attribute promised by the class docstring
(utils.py line 23) — is ever assigned. -/
def throttleSetAttrs : List String := ["_throttle"]

/-- The attribute the `Throttle` class docstring promises to add to the
wrapped method (utils.py line 23: "Adds a datetime attribute `last_call` to
the method"). -/
def docPromisedAttr : String := "last_call"

/- ------------------------------------------------------------------ -/
/- Helper lemmas -/

/-- Closed form of one unnested invocation on a returning delegate, by cases
on the source's three paths: lock contention, guarded execution, timing
rejection. -/
theorem throttleCall_ok_eq {ε α : Type} (min_time : Nat) (e : Entry)
    (nt : Bool) (tNow tRec : Nat) (v : α) :
    throttleCall (ε := ε) min_time e nt tNow tRec (Except.ok v) =
      if e.locked then (Except.ok none, e, false)
      else if nt || e.last.isNone || decide (min_time < tNow - e.last.getD 0) then
        (Except.ok (some v), { locked := false, last := some tRec }, true)
      else (Except.ok none, e, false) := by
  simp only [throttleCall, wrapperRun, delegateMethod, Except.map, Bool.or_assoc]
  split
  · rfl
  · split <;> rfl

/-- Closed form of one unnested invocation on a raising delegate: contention
and timing rejection return the sentinel, and on the guarded path the raise
propagates with the lock released and the timestamp unwritten. -/
theorem throttleCall_error_eq {ε α : Type} (min_time : Nat) (e : Entry)
    (nt : Bool) (tNow tRec : Nat) (err : ε) :
    throttleCall (α := α) min_time e nt tNow tRec (Except.error err) =
      if e.locked then (Except.ok none, e, false)
      else if nt || e.last.isNone || decide (min_time < tNow - e.last.getD 0) then
        (Except.error err, e, true)
      else (Except.ok none, e, false) := by
  simp only [throttleCall, wrapperRun, delegateMethod, Except.map, Bool.or_assoc]
  split
  · rfl
  · split <;> rfl

/-- A run flag of `true` on a returning delegate pins down the whole output:
the delegate's value is returned and the entry records the post-return time. -/
theorem throttleCall_ran_ok {ε α : Type} {min_time : Nat} {e : Entry}
    {nt : Bool} {tNow tRec : Nat} {v : α}
    (h : (throttleCall (ε := ε) min_time e nt tNow tRec (Except.ok v)).2.2 = true) :
    throttleCall (ε := ε) min_time e nt tNow tRec (Except.ok v)
      = (Except.ok (some v), { locked := false, last := some tRec }, true) := by
  rw [throttleCall_ok_eq] at h ⊢
  split at h
  · simp at h
  · split at h
    · rename_i hl hc
      rw [if_neg hl, if_pos hc]
    · simp at h

/-- A non-forced call on an entry whose last-success timestamp is at most
`min_time` ticks old is rejected by the timing check (or by the lock, if
held): sentinel result, delegate not run, entry untouched. -/
theorem throttleCall_within {ε α : Type} (min_time : Nat) (e : Entry)
    (tl t r : Nat) (d : Except ε α)
    (hlast : e.last = some tl) (ht : t ≤ tl + min_time) :
    throttleCall min_time e false t r d = (Except.ok none, e, false) := by
  have hc : ¬ (min_time < t - e.last.getD 0) := by
    rw [hlast]; simp only [Option.getD_some]; omega
  cases d with
  | ok v =>
      rw [throttleCall_ok_eq]
      by_cases hl : e.locked
      · rw [if_pos hl]
      · rw [if_neg hl]
        simp [hlast, hc]
        omega
  | error err =>
      rw [throttleCall_error_eq]
      by_cases hl : e.locked
      · rw [if_pos hl]
      · rw [if_neg hl]
        simp [hlast, hc]
        omega

/-- Whenever a call does not run the delegate, it returned the sentinel and
left its entry (lock state and timestamp) exactly as it found it. -/
theorem throttleCall_not_ran {ε α : Type} (min_time : Nat) (e : Entry)
    (nt : Bool) (t r : Nat) (d : Except ε α)
    (h : (throttleCall min_time e nt t r d).2.2 = false) :
    throttleCall min_time e nt t r d = (Except.ok none, e, false) := by
  cases d with
  | ok v =>
      rw [throttleCall_ok_eq] at h ⊢
      split at h
      · rename_i hl; rw [if_pos hl]
      · split at h
        · simp at h
        · rename_i hl hc; rw [if_neg hl, if_neg hc]
  | error err =>
      rw [throttleCall_error_eq] at h ⊢
      split at h
      · rename_i hl; rw [if_pos hl]
      · split at h
        · simp at h
        · rename_i hl hc; rw [if_neg hl, if_neg hc]

/-- When the synchronous wrapper around a coroutine function hands back the
real pending coroutine, the post-state entry is unlocked (the `finally` ran
before the wrapper returned) with `last` set to the creation time — all
before the delegate body has executed at all. -/
theorem asyncPending_post {min_time : Nat} {e : Entry} {nt : Bool} {t : Nat}
    (hl : e.locked = false)
    (hp : (asyncWrapperCall min_time e nt t).1 = AsyncRet.pending) :
    (asyncWrapperCall min_time e nt t).2 = { locked := false, last := some t } := by
  unfold asyncWrapperCall at hp ⊢
  rw [if_neg (by simp [hl])] at hp ⊢
  split at hp
  · rename_i hc; rw [if_pos hc]
  · simp at hp

/-- A non-forced wrapper invocation on a coroutine function within the
interval of the recorded creation timestamp returns the sentinel coroutine
and changes nothing. -/
theorem asyncWithin (min_time tl t : Nat) (ht : t ≤ tl + min_time) :
    asyncWrapperCall min_time { locked := false, last := some tl } false t
      = (AsyncRet.sentinel, { locked := false, last := some tl }) := by
  unfold asyncWrapperCall
  rw [if_neg (by simp)]
  rw [if_neg (by simp; omega)]

/- ------------------------------------------------------------------ -/
/- Claim theorems -/

/-- C1: for every definition with minimum interval `T` and every entity, if a
call ran the delegate (recording its completion time `r1` as last success) and
a second non-forced call on the same entity arrives less than `T` after that
recorded timestamp, the second call returns the throttled sentinel `none`,
does not run the delegate, and leaves the entry unchanged. -/
theorem second_call_within_interval_throttled {ε α : Type}
    (T : Nat) (e : Entry) (nt1 : Bool) (t1 r1 : Nat) (v1 : α)
    (t2 r2 : Nat) (d2 : Except ε α)
    (h1 : (throttleCall (ε := ε) T e nt1 t1 r1 (Except.ok v1)).2.2 = true)
    (h2 : t2 < r1 + T) :
    throttleCall T (throttleCall (ε := ε) T e nt1 t1 r1 (Except.ok v1)).2.1
        false t2 r2 d2
      = (Except.ok none,
         (throttleCall (ε := ε) T e nt1 t1 r1 (Except.ok v1)).2.1, false) := by
  rw [throttleCall_ran_ok h1]
  exact throttleCall_within T _ r1 t2 r2 d2 rfl (by omega)

/-- Witness for C1 at `T = 5`: a first call at time 0 runs the delegate, a
second one 3 ticks later is throttled. -/
theorem second_call_within_interval_throttled_witness :
    (throttleCall (ε := Unit) 5 Entry.fresh false 0 0 (Except.ok (1 : Nat))).2.2
        = true ∧
    (3 : Nat) < 0 + 5 ∧
    throttleCall (ε := Unit) 5 (throttleCall (ε := Unit) 5 Entry.fresh false 0 0
        (Except.ok (1 : Nat))).2.1 false 3 3 (Except.ok (2 : Nat))
      = (Except.ok none,
         (throttleCall (ε := Unit) 5 Entry.fresh false 0 0
           (Except.ok (1 : Nat))).2.1, false) :=
  ⟨rfl, by omega,
   second_call_within_interval_throttled 5 Entry.fresh false 0 0 1 3 3
     (Except.ok 2) rfl (by omega)⟩

/-- C2 counterexample: with `T = 5`, a first call at time 0 runs the delegate
(recording last success 0), and a second non-forced call spaced exactly `T`
later, at time 5, is throttled — sentinel result and delegate not run —
because the source's check on utils.py line 88 is the strict
`datetime.now() - throttle[1] > self.min_time`.  This refutes the claim that
calls spaced exactly `T` apart both execute. -/
theorem exact_interval_spacing_throttled :
    (throttleCall (ε := Unit) 5 Entry.fresh false 0 0 (Except.ok (1 : Nat))).2.2
        = true ∧
    throttleCall (ε := Unit) 5 (throttleCall (ε := Unit) 5 Entry.fresh false 0 0
        (Except.ok (1 : Nat))).2.1 false 5 5 (Except.ok (2 : Nat))
      = (Except.ok none, { locked := false, last := some 0 }, false) :=
  ⟨rfl, rfl⟩

/-- C2 as amended: two sequential non-forced calls spaced strictly more than
`T` apart (measured from the first call's recorded completion time) both run
the delegate and both return its real result. -/
theorem calls_spaced_beyond_interval_both_execute {ε α : Type}
    (T : Nat) (e : Entry) (nt1 : Bool) (t1 r1 : Nat) (v1 : α)
    (t2 r2 : Nat) (v2 : α)
    (h1 : (throttleCall (ε := ε) T e nt1 t1 r1 (Except.ok v1)).2.2 = true)
    (h2 : r1 + T < t2) :
    throttleCall (ε := ε) T e nt1 t1 r1 (Except.ok v1)
        = (Except.ok (some v1), { locked := false, last := some r1 }, true) ∧
    throttleCall (ε := ε) T (throttleCall (ε := ε) T e nt1 t1 r1 (Except.ok v1)).2.1
        false t2 r2 (Except.ok v2)
      = (Except.ok (some v2), { locked := false, last := some r2 }, true) := by
  refine ⟨throttleCall_ran_ok h1, ?_⟩
  rw [throttleCall_ran_ok h1, throttleCall_ok_eq]
  rw [if_neg (by simp)]
  rw [if_pos (by simp; omega)]

/-- Witness for the amended C2 at `T = 5`: calls at times 0 and 6. -/
theorem calls_spaced_beyond_interval_both_execute_witness :
    (throttleCall (ε := Unit) 5 Entry.fresh false 0 0 (Except.ok (1 : Nat))).2.2
        = true ∧
    (0 : Nat) + 5 < 6 ∧
    (throttleCall (ε := Unit) 5 Entry.fresh false 0 0 (Except.ok (1 : Nat))
        = (Except.ok (some 1), { locked := false, last := some 0 }, true) ∧
     throttleCall (ε := Unit) 5 (throttleCall (ε := Unit) 5 Entry.fresh false 0 0
        (Except.ok (1 : Nat))).2.1 false 6 6 (Except.ok (2 : Nat))
      = (Except.ok (some 2), { locked := false, last := some 6 }, true)) :=
  ⟨rfl, by omega,
   calls_spaced_beyond_interval_both_execute 5 Entry.fresh false 0 0 1 6 6 2
     rfl (by omega)⟩

/-- C4: on a fresh owning entity (no registry entry yet, so the lazily created
entry has `last = none`), the very first call runs the delegate and returns
its result without `no_throttle`, regardless of the interval `T`; the updated
entry is stored on that entity. -/
theorem first_call_on_fresh_entity_executes {ε α : Type}
    (T : Nat) (reg : Registry) (ent : Nat) (t r : Nat) (v : α)
    (h : reg ent = none) :
    callOnEntity (ε := ε) T reg ent false t r (Except.ok v)
      = (Except.ok (some v),
         fun x => if x = ent then some { locked := false, last := some r }
                  else reg x,
         true) := by
  have hfresh : lookupOrCreate reg ent = Entry.fresh := by
    simp [lookupOrCreate, h]
  simp only [callOnEntity, hfresh]
  rw [throttleCall_ok_eq]
  simp [Entry.fresh]

/-- Witness for C4: a fresh registry, entity 0, `T = 100`, first call at time
0 runs the delegate. -/
theorem first_call_on_fresh_entity_executes_witness :
    ((fun _ : Nat => (none : Option Entry)) 0 = none) ∧
    callOnEntity (ε := Unit) 100 (fun _ => none) 0 false 0 2 (Except.ok (3 : Nat))
      = (Except.ok (some 3),
         fun x => if x = 0 then some { locked := false, last := some 2 }
                  else (fun _ : Nat => (none : Option Entry)) x,
         true) :=
  ⟨rfl, first_call_on_fresh_entity_executes 100 (fun _ => none) 0 0 2 3 rfl⟩

/-- C10: for a synchronous operation, a non-forced call that ran the delegate
must have begun strictly more than `T` after the previously recorded
last-success timestamp `tl` (which successful calls record as the
post-delegate-return clock reading), and its own recorded timestamp is the
post-return reading `tRec`, not the start reading `tNow`. -/
theorem interval_measured_from_completion {ε α : Type}
    (T tl tNow tRec : Nat) (v : α)
    (h : (throttleCall (ε := ε) T { locked := false, last := some tl }
            false tNow tRec (Except.ok v)).2.2 = true) :
    tl + T < tNow ∧
    (throttleCall (ε := ε) T { locked := false, last := some tl }
        false tNow tRec (Except.ok v)).2.1.last = some tRec := by
  have hpost := throttleCall_ran_ok h
  rw [throttleCall_ok_eq] at h
  rw [if_neg (by simp)] at h
  constructor
  · by_cases hc : ((false || (some tl).isNone
        || decide (T < tNow - (some tl).getD 0)) = true)
    · simp at hc; omega
    · rw [if_neg hc] at h; simp at h
  · rw [hpost]

/-- Witness for C10 at `T = 2`: a call beginning at time 3 against a last
success at time 0 runs, and `3 > 0 + 2`; it records the post-return time 4. -/
theorem interval_measured_from_completion_witness :
    (throttleCall (ε := Unit) 2 { locked := false, last := some 0 }
        false 3 4 (Except.ok (7 : Nat))).2.2 = true ∧
    ((0 : Nat) + 2 < 3 ∧
     (throttleCall (ε := Unit) 2 { locked := false, last := some 0 }
        false 3 4 (Except.ok (7 : Nat))).2.1.last = some 4) :=
  ⟨rfl, interval_measured_from_completion 2 0 3 4 7 rfl⟩

/-- A forced wrapper invocation (the caller passed `no_throttle = true`) on an
unlocked entry always runs its method and records the post-return time,
whatever the method's result and run flag turn out to be. -/
theorem wrapperRun_forced {ε α μ : Type} (min_time : Nat) (tNow tRec : Nat)
    (method : μ → Except ε (Option α) × μ × Bool) (entry : Entry) (ms : μ)
    (w : Option α) (ms' : μ) (ran : Bool)
    (hl : entry.locked = false) (hm : method ms = (Except.ok w, ms', ran)) :
    wrapperRun min_time true tNow tRec method entry ms
      = (Except.ok w, { locked := false, last := some tRec }, ms', ran) := by
  unfold wrapperRun
  rw [if_neg (by simp [hl])]
  simp only [Bool.true_or, if_true, hm]

/-- A forced call through a secondary (`limit_no_throttle`) definition whose
own interval has not yet elapsed: the outer wrapper is forced, so it runs its
method — which is the inner wrapper, and the inner wrapper rejects by timing
(or by its lock).  The composite returns the sentinel without running the
delegate, leaves the inner entry untouched, and still stamps the outer
entry's last-success with the outer post-return time. -/
theorem nestedCall_forced_inner_rejected {ε α : Type} (T L : Nat)
    (oe ie : Entry) (tl tOut tInner tInnerRec tOutRec : Nat) (d : Except ε α)
    (ho : oe.locked = false) (hi : ie.last = some tl) (hle : tInner ≤ tl + L) :
    nestedCall T L oe ie true tOut tInner tInnerRec tOutRec d
      = (Except.ok none, { locked := false, last := some tOutRec }, ie, false) := by
  unfold nestedCall
  exact wrapperRun_forced T tOut tOutRec _ oe ie none ie false ho
    (throttleCall_within L ie tl tInner tInnerRec d hi hle)

/-- C3: a forced call (`no_throttle = true`) that can acquire the lock runs
the delegate even inside the primary interval when no secondary definition is
set; when a secondary `limit_no_throttle` definition is set and its own
interval has not yet elapsed on its entry, the forced call returns the
throttled sentinel and the delegate does not run. -/
theorem forced_call_behavior {ε α : Type} :
    (∀ (T : Nat) (e : Entry) (tNow tRec : Nat) (v : α),
        e.locked = false →
        throttleCall (ε := ε) T e true tNow tRec (Except.ok v)
          = (Except.ok (some v), { locked := false, last := some tRec }, true)) ∧
    (∀ (T L : Nat) (oe ie : Entry) (tl tOut tInner tInnerRec tOutRec : Nat)
        (v : α),
        oe.locked = false → ie.last = some tl → tInner ≤ tl + L →
        (nestedCall (ε := ε) T L oe ie true tOut tInner tInnerRec tOutRec
            (Except.ok v)).1 = Except.ok none ∧
        (nestedCall (ε := ε) T L oe ie true tOut tInner tInnerRec tOutRec
            (Except.ok v)).2.2.2 = false) := by
  constructor
  · intro T e tNow tRec v ho
    rw [throttleCall_ok_eq, if_neg (by simp [ho]), if_pos (by simp)]
  · intro T L oe ie tl tOut tInner tInnerRec tOutRec v ho hi hle
    rw [nestedCall_forced_inner_rejected T L oe ie tl tOut tInner tInnerRec
      tOutRec _ ho hi hle]
    exact ⟨rfl, rfl⟩

/-- Witness for C3: forced execution within the interval at `T = 5`, and a
forced call rejected by a secondary definition with `L = 9` whose entry was
last stamped at time 0 when the forced call arrives at time 1. -/
theorem forced_call_behavior_witness :
    (({ locked := false, last := some 0 } : Entry).locked = false) ∧
    throttleCall (ε := Unit) 5 { locked := false, last := some 0 } true 1 1
        (Except.ok (7 : Nat))
      = (Except.ok (some 7), { locked := false, last := some 1 }, true) ∧
    (({ locked := false, last := some 0 } : Entry).last = some 0 ∧
     (1 : Nat) ≤ 0 + 9) ∧
    ((nestedCall (ε := Unit) 5 9 { locked := false, last := some 0 }
        { locked := false, last := some 0 } true 1 1 1 1
        (Except.ok (7 : Nat))).1 = Except.ok none ∧
     (nestedCall (ε := Unit) 5 9 { locked := false, last := some 0 }
        { locked := false, last := some 0 } true 1 1 1 1
        (Except.ok (7 : Nat))).2.2.2 = false) :=
  ⟨rfl,
   (forced_call_behavior (ε := Unit) (α := Nat)).1 5
     { locked := false, last := some 0 } 1 1 7 rfl,
   ⟨rfl, by omega⟩,
   (forced_call_behavior (ε := Unit) (α := Nat)).2 5 9
     { locked := false, last := some 0 } { locked := false, last := some 0 }
     0 1 1 1 1 7 rfl rfl (by omega)⟩

/-- C5 counterexample: with a secondary definition (`T = 10`, `L = 10`), both
entries last stamped at time 0, a forced call at time 1 is rejected by the
secondary throttle — it returns the sentinel and the delegate does not run —
yet the primary entry's `last_success` is still rewritten from `some 0` to
`some 1`, because the outer wrapper's line 90 stamps after its method (the
inner wrapper) returns, sentinel or not.  This refutes the claim that every
sentinel-returning call leaves `last_success` unchanged. -/
theorem secondary_rejected_call_updates_primary_timestamp :
    nestedCall (ε := Unit) 10 10 { locked := false, last := some 0 }
        { locked := false, last := some 0 } true 1 1 1 1 (Except.ok (7 : Nat))
      = (Except.ok none, { locked := false, last := some 1 },
         { locked := false, last := some 0 }, false) ∧
    (nestedCall (ε := Unit) 10 10 { locked := false, last := some 0 }
        { locked := false, last := some 0 } true 1 1 1 1
        (Except.ok (7 : Nat))).2.1.last
      ≠ ({ locked := false, last := some 0 } : Entry).last :=
  ⟨rfl, by decide⟩

/-- C5 as amended: for an unnested definition, any call that does not run the
delegate returns the sentinel and leaves its entry — lock state and
`last_success` — exactly as found (this covers rejection by timing and by
lock contention).  With a secondary definition, a forced call rejected by the
secondary throttle leaves the secondary entry unchanged but still updates the
primary entry's `last_success` to the outer post-return time. -/
theorem last_success_update_rule {ε α : Type} :
    (∀ (T : Nat) (e : Entry) (nt : Bool) (t r : Nat) (d : Except ε α),
        (throttleCall T e nt t r d).2.2 = false →
        throttleCall T e nt t r d = (Except.ok none, e, false)) ∧
    (∀ (T L : Nat) (oe ie : Entry) (tl tOut tInner tInnerRec tOutRec : Nat)
        (d : Except ε α),
        oe.locked = false → ie.last = some tl → tInner ≤ tl + L →
        (nestedCall T L oe ie true tOut tInner tInnerRec tOutRec d).1
            = Except.ok none ∧
        (nestedCall T L oe ie true tOut tInner tInnerRec tOutRec d).2.2.1
            = ie ∧
        (nestedCall T L oe ie true tOut tInner tInnerRec tOutRec d).2.1.last
            = some tOutRec) := by
  constructor
  · intro T e nt t r d h
    exact throttleCall_not_ran T e nt t r d h
  · intro T L oe ie tl tOut tInner tInnerRec tOutRec d ho hi hle
    rw [nestedCall_forced_inner_rejected T L oe ie tl tOut tInner tInnerRec
      tOutRec d ho hi hle]
    exact ⟨rfl, rfl, rfl⟩

/-- Witness for the amended C5: a timing-rejected call at `T = 5` leaves its
entry untouched, and the nested forced scenario of the counterexample leaves
the secondary entry untouched while stamping the primary one. -/
theorem last_success_update_rule_witness :
    ((throttleCall (ε := Unit) 5 { locked := false, last := some 0 } false 3 9
        (Except.ok (1 : Nat))).2.2 = false ∧
     throttleCall (ε := Unit) 5 { locked := false, last := some 0 } false 3 9
        (Except.ok (1 : Nat))
       = (Except.ok none, { locked := false, last := some 0 }, false)) ∧
    ((nestedCall (ε := Unit) 5 9 { locked := false, last := some 0 }
        { locked := false, last := some 0 } true 1 1 1 2
        (Except.ok (7 : Nat))).1 = Except.ok none ∧
     (nestedCall (ε := Unit) 5 9 { locked := false, last := some 0 }
        { locked := false, last := some 0 } true 1 1 1 2
        (Except.ok (7 : Nat))).2.2.1 = { locked := false, last := some 0 } ∧
     (nestedCall (ε := Unit) 5 9 { locked := false, last := some 0 }
        { locked := false, last := some 0 } true 1 1 1 2
        (Except.ok (7 : Nat))).2.1.last = some 2) :=
  ⟨⟨rfl, (last_success_update_rule (ε := Unit) (α := Nat)).1 5
      { locked := false, last := some 0 } false 3 9 (Except.ok 1) rfl⟩,
   (last_success_update_rule (ε := Unit) (α := Nat)).2 5 9
     { locked := false, last := some 0 } { locked := false, last := some 0 }
     0 1 1 1 2 (Except.ok 7) rfl rfl (by omega)⟩

/-- C6 counterexample: an asynchronous operation at `T = 5` on a fresh entry
(`last = none`).  The synchronous wrapper creates the coroutine, stamps
`last_success := some 0` and returns; awaiting the coroutine then raises.
The failing invocation did modify `last_success` (from `none` to `some 0`),
refuting the claim that a call whose delegate raises leaves `last_success`
unmodified. -/
theorem async_failing_call_marks_timestamp :
    Entry.fresh.last = none ∧
    asyncWrapperCall 5 Entry.fresh false 0
      = (AsyncRet.pending, { locked := false, last := some 0 }) ∧
    awaitRun AsyncRet.pending (fun _ => (Except.error () : Except Unit Nat))
      = Except.error () :=
  ⟨rfl, rfl, rfl⟩

/-- C6 as amended: for a synchronous operation whose delegate raises, the
exception propagates unchanged, the lock is released and `last_success` is
unwritten, and a later call past the interval acquires the lock and runs
normally.  For an asynchronous operation the wrapper hands back the pending
coroutine with the lock already released and `last_success` already stamped
with the creation time, so a failure at await time happens after the
timestamp was written. -/
theorem raising_delegate_lock_and_timestamp :
    (∀ (ε α : Type) (T tl tNow tRec : Nat) (err : ε) (t2 r2 : Nat) (v : α),
        T < tNow - tl →
        (throttleCall (α := α) T { locked := false, last := some tl } false
            tNow tRec (Except.error err)
          = (Except.error err, { locked := false, last := some tl }, true) ∧
         (T < t2 - tl →
           throttleCall (ε := ε) T { locked := false, last := some tl } false
               t2 r2 (Except.ok v)
             = (Except.ok (some v), { locked := false, last := some r2 },
                true)))) ∧
    (∀ (T : Nat) (e : Entry) (nt : Bool) (t : Nat),
        e.locked = false →
        (asyncWrapperCall T e nt t).1 = AsyncRet.pending →
        (asyncWrapperCall T e nt t).2 = { locked := false, last := some t }) := by
  constructor
  · intro ε α T tl tNow tRec err t2 r2 v hgt
    constructor
    · rw [throttleCall_error_eq, if_neg (by simp), if_pos (by simp; omega)]
    · intro hgt2
      rw [throttleCall_ok_eq, if_neg (by simp), if_pos (by simp; omega)]
  · intro T e nt t hl hp
    exact asyncPending_post hl hp

/-- Witness for the amended C6 at `T = 5`, last success at time 0: a raising
delegate at time 6 propagates and leaves the entry as found; a retry at time
7 runs; the async wrapper on a fresh entry stamps the creation time 0. -/
theorem raising_delegate_lock_and_timestamp_witness :
    ((5 : Nat) < 6 - 0 ∧
     (throttleCall (α := Nat) 5 { locked := false, last := some 0 } false 6 6
        (Except.error ())
       = (Except.error (), { locked := false, last := some 0 }, true) ∧
      ((5 : Nat) < 7 - 0 →
        throttleCall (ε := Unit) 5 { locked := false, last := some 0 } false 7
            8 (Except.ok (9 : Nat))
          = (Except.ok (some 9), { locked := false, last := some 8 },
             true)))) ∧
    (Entry.fresh.locked = false ∧
     (asyncWrapperCall 5 Entry.fresh false 0).1 = AsyncRet.pending ∧
     (asyncWrapperCall 5 Entry.fresh false 0).2
       = { locked := false, last := some 0 }) :=
  ⟨⟨by omega, raising_delegate_lock_and_timestamp.1 Unit Nat 5 0 6 6 () 7 8 9
      (by omega)⟩,
   ⟨rfl, rfl, raising_delegate_lock_and_timestamp.2 5 Entry.fresh false 0 rfl
      rfl⟩⟩

/-- C7 counterexample: at `T = 5`, a first async invocation on a fresh entry
returns a pending, not yet executed delegate coroutine with the entry already
unlocked — the lock is not held while the delegate body executes.  A second,
concurrent forced invocation at time 1 then also obtains a pending delegate
coroutine instead of the throttled sentinel, and awaiting it runs its body;
the two delegate bodies are free to run concurrently.  This refutes the claim
that the lock is held across the delegate's suspension points and that the
second invocation receives the sentinel. -/
theorem async_lock_free_while_delegate_pending :
    asyncWrapperCall 5 Entry.fresh false 0
      = (AsyncRet.pending, { locked := false, last := some 0 }) ∧
    asyncWrapperCall 5 { locked := false, last := some 0 } true 1
      = (AsyncRet.pending, { locked := false, last := some 1 }) ∧
    awaitRun AsyncRet.pending (fun _ => (Except.ok 9 : Except Unit Nat))
      = Except.ok (some 9) :=
  ⟨rfl, rfl, rfl⟩

/-- C7 as amended: for asynchronous operations the lock is held only inside
the synchronous wrapper call that creates the coroutine; whenever the wrapper
returns the pending coroutine, the entry it leaves behind is unlocked with
`last_success` stamped at creation time, and a second non-forced invocation
arriving within the interval of that stamp is rejected by the timing check —
not by lock contention — and receives the sentinel. -/
theorem async_gate_is_timing_not_lock :
    ∀ (T : Nat) (e : Entry) (nt : Bool) (t t2 : Nat),
      e.locked = false →
      (asyncWrapperCall T e nt t).1 = AsyncRet.pending →
      (asyncWrapperCall T e nt t).2 = { locked := false, last := some t } ∧
      (t2 ≤ t + T →
        asyncWrapperCall T { locked := false, last := some t } false t2
          = (AsyncRet.sentinel, { locked := false, last := some t })) := by
  intro T e nt t t2 hl hp
  exact ⟨asyncPending_post hl hp, fun h2 => asyncWithin T t t2 h2⟩

/-- Witness for the amended C7 at `T = 5`: a fresh-entry async call at time 0
leaves the unlocked stamped entry, and a non-forced call at time 3 gets the
sentinel. -/
theorem async_gate_is_timing_not_lock_witness :
    Entry.fresh.locked = false ∧
    (asyncWrapperCall 5 Entry.fresh false 0).1 = AsyncRet.pending ∧
    ((asyncWrapperCall 5 Entry.fresh false 0).2
        = { locked := false, last := some 0 } ∧
     ((3 : Nat) ≤ 0 + 5 →
       asyncWrapperCall 5 { locked := false, last := some 0 } false 3
         = (AsyncRet.sentinel, { locked := false, last := some 0 }))) :=
  ⟨rfl, rfl, async_gate_is_timing_not_lock 5 Entry.fresh false 0 3 rfl rfl⟩

/-- C8: the wrapped operation does not expose the last-invocation timestamp
as a readable attribute.  The only attribute the throttle machinery ever
creates is the private registry dict `_throttle` on the host; the `last_call`
attribute promised by the class docstring (utils.py line 23) is never
assigned anywhere in the source. -/
theorem last_call_attribute_never_created :
    docPromisedAttr ∉ throttleSetAttrs := by
  decide

/-- C9: two owning entities sharing one throttle definition are gated
independently.  A call resolved through entity `e1` leaves entity `e2`'s
registry slot unchanged, and a subsequent call on `e2` returns the same
result, same delegate-run flag and same updated `e2` entry as it would have
with no `e1` call at all. -/
theorem entities_throttled_independently {ε α : Type}
    (T : Nat) (reg : Registry) (e1 e2 : Nat) (nt1 nt2 : Bool)
    (t1 r1 t2 r2 : Nat) (d1 d2 : Except ε α)
    (hne : e1 ≠ e2) :
    (callOnEntity T reg e1 nt1 t1 r1 d1).2.1 e2 = reg e2 ∧
    (callOnEntity T (callOnEntity T reg e1 nt1 t1 r1 d1).2.1 e2 nt2 t2 r2
        d2).1
      = (callOnEntity T reg e2 nt2 t2 r2 d2).1 ∧
    (callOnEntity T (callOnEntity T reg e1 nt1 t1 r1 d1).2.1 e2 nt2 t2 r2
        d2).2.2
      = (callOnEntity T reg e2 nt2 t2 r2 d2).2.2 ∧
    (callOnEntity T (callOnEntity T reg e1 nt1 t1 r1 d1).2.1 e2 nt2 t2 r2
        d2).2.1 e2
      = (callOnEntity T reg e2 nt2 t2 r2 d2).2.1 e2 := by
  have h21 : ¬ (e2 = e1) := fun h => hne h.symm
  have hreg : (callOnEntity (ε := ε) T reg e1 nt1 t1 r1 d1).2.1 e2 = reg e2 := by
    simp [callOnEntity, h21]
  refine ⟨hreg, ?_, ?_, ?_⟩ <;> simp [callOnEntity, lookupOrCreate, h21]

/-- Witness for C9 at `T = 5`, entities 0 and 1 on an empty registry. -/
theorem entities_throttled_independently_witness :
    (callOnEntity (ε := Unit) 5 (fun _ => none) 0 false 0 0
        (Except.ok (1 : Nat))).2.1 1 = (fun _ : Nat => (none : Option Entry)) 1 ∧
    (callOnEntity (ε := Unit) 5
        (callOnEntity (ε := Unit) 5 (fun _ => none) 0 false 0 0
          (Except.ok (1 : Nat))).2.1 1 false 2 2 (Except.ok (3 : Nat))).1
      = (callOnEntity (ε := Unit) 5 (fun _ => none) 1 false 2 2
          (Except.ok (3 : Nat))).1 ∧
    (callOnEntity (ε := Unit) 5
        (callOnEntity (ε := Unit) 5 (fun _ => none) 0 false 0 0
          (Except.ok (1 : Nat))).2.1 1 false 2 2 (Except.ok (3 : Nat))).2.2
      = (callOnEntity (ε := Unit) 5 (fun _ => none) 1 false 2 2
          (Except.ok (3 : Nat))).2.2 ∧
    (callOnEntity (ε := Unit) 5
        (callOnEntity (ε := Unit) 5 (fun _ => none) 0 false 0 0
          (Except.ok (1 : Nat))).2.1 1 false 2 2 (Except.ok (3 : Nat))).2.1 1
      = (callOnEntity (ε := Unit) 5 (fun _ => none) 1 false 2 2
          (Except.ok (3 : Nat))).2.1 1 :=
  entities_throttled_independently 5 (fun _ => none) 0 1 false false 0 0 2 2
    (Except.ok 1) (Except.ok 3) (by decide)
